import Mathlib

/-!
Verification of the construction-tracker cost aggregation, budget alerting,
and receipt-primacy logic.

The development is a shallow embedding of the Django application:

* `tracker/models.py` — `Project` (`total_spent`, `budget_utilization_percentage`),
  `MaterialEntry` (`quantity_remaining`, `is_depleted`), `Receipt`
  (`save`, `delete`, the default ordering `['-is_primary', '-uploaded_at']`),
  `BudgetAlert`;
* `labor/models.py` — `LaborEntry` (`total_cost`);
* `tracker/views.py` — `check_budget_alerts`, `material_create`, `material_update`,
  `receipt_set_primary`, and the monthly-timeline merge in `dashboard`;
* `labor/views.py` — `labor_create`, `labor_update`.

Monetary `Decimal` values are modelled as rationals (`ℚ`); database rows are
modelled as lists; a bulk `UPDATE ... WHERE` is a `List.map` over the rows;
row identity (`pk`) is a natural number.
-/

namespace ConstructionTracker

/-- Alert severities of `BudgetAlert.ALERT_TYPE_CHOICES` in `tracker/models.py`:
`warning` (75%), `critical` (90%), `exceeded` (100%). -/
inductive AlertType
  | warning
  | critical
  | exceeded
  deriving DecidableEq, Repr

/-- A `BudgetAlert` row (`tracker/models.py`).  `is_read` and `email_sent`
default to `False` on creation; the free-text `message` is not modelled. -/
structure BudgetAlert where
  alert_type : AlertType
  percentage : ℚ
  is_read : Bool
  email_sent : Bool
  deriving DecidableEq, Repr

/-- A `MaterialEntry` row (`tracker/models.py`), restricted to the fields the
cost aggregation uses: `cost`, `quantity`, `quantity_used`. -/
structure MaterialEntry where
  cost : ℚ
  quantity : ℚ
  quantity_used : ℚ
  deriving DecidableEq, Repr

/-- A `LaborEntry` row (`labor/models.py`), restricted to `number_of_workers`
and `rate_per_worker_per_day`. -/
structure LaborEntry where
  number_of_workers : ℕ
  rate_per_worker_per_day : ℚ
  deriving DecidableEq, Repr

/-- The per-project portion of the entity store: the project's `budget`
column together with its related `material_entries`, `labor_entries` and
`budget_alerts` rows. -/
structure ProjectState where
  budget : ℚ
  materials : List MaterialEntry
  labor : List LaborEntry
  alerts : List BudgetAlert
  deriving DecidableEq, Repr

/-- `Project.total_spent` (`tracker/models.py` lines 110–116): the aggregate
`Sum('cost')` over the project's material entries, with `None` (empty set)
replaced by `Decimal('0.00')`.  Labor entries are not included. -/
def total_spent (p : ProjectState) : ℚ :=
  (p.materials.map (fun e => e.cost)).sum

/-- The dashboard's total material cost (`tracker/views.py` lines 53–55):
`Sum('cost')` over material entries, defaulting to `0`. -/
def total_material_cost (p : ProjectState) : ℚ :=
  (p.materials.map (fun e => e.cost)).sum

/-- `LaborEntry.total_cost` (`labor/models.py` lines 48–51):
`number_of_workers * rate_per_worker_per_day`. -/
def LaborEntry.total_cost (e : LaborEntry) : ℚ :=
  (e.number_of_workers : ℚ) * e.rate_per_worker_per_day

/-- The dashboard's total labor cost (`tracker/views.py` lines 58–62):
`Sum(F('number_of_workers') * F('rate_per_worker_per_day'))`, defaulting
to `0`. -/
def total_labor_cost (p : ProjectState) : ℚ :=
  (p.labor.map LaborEntry.total_cost).sum

/-- `Project.budget_utilization_percentage` (`tracker/models.py` lines
123–128): `0` when `budget == 0`, else `total_spent / budget * 100`. -/
def budget_utilization_percentage (p : ProjectState) : ℚ :=
  if p.budget = 0 then 0
  else total_spent p / p.budget * 100

/-- `MaterialEntry.quantity_remaining` (`tracker/models.py` lines 245–248):
`quantity - quantity_used`. -/
def MaterialEntry.quantity_remaining (e : MaterialEntry) : ℚ :=
  e.quantity - e.quantity_used

/-- `MaterialEntry.is_depleted` (`tracker/models.py` lines 257–260):
`quantity_used >= quantity`. -/
def MaterialEntry.is_depleted (e : MaterialEntry) : Bool :=
  decide (e.quantity ≤ e.quantity_used)

/-- The queryset test `project.budget_alerts.filter(alert_type=t).exists()`
used by `check_budget_alerts`. -/
def hasAlertType (alerts : List BudgetAlert) (t : AlertType) : Bool :=
  alerts.any (fun a => a.alert_type == t)

/-- `BudgetAlert.objects.create(...)` with the given type and percentage:
`is_read` and `email_sent` take their model defaults (`False`). -/
def mkBudgetAlert (t : AlertType) (pct : ℚ) : BudgetAlert :=
  { alert_type := t, percentage := pct, is_read := false, email_sent := false }

/-- Number of the project's alerts of a given type. -/
def countAlertType (alerts : List BudgetAlert) (t : AlertType) : ℕ :=
  alerts.countP (fun a => a.alert_type == t)

/-- `check_budget_alerts` (`tracker/views.py` lines 1073–1098): an
`if / elif / elif` chain over the utilization percentage, creating at most
one alert, each branch guarded by the absence of an alert of that type. -/
def check_budget_alerts (p : ProjectState) : ProjectState :=
  let percentage := budget_utilization_percentage p
  if 100 ≤ percentage ∧ hasAlertType p.alerts AlertType.exceeded = false then
    { p with alerts := p.alerts ++ [mkBudgetAlert AlertType.exceeded percentage] }
  else if 90 ≤ percentage ∧ hasAlertType p.alerts AlertType.critical = false then
    { p with alerts := p.alerts ++ [mkBudgetAlert AlertType.critical percentage] }
  else if 75 ≤ percentage ∧ hasAlertType p.alerts AlertType.warning = false then
    { p with alerts := p.alerts ++ [mkBudgetAlert AlertType.warning percentage] }
  else p

/-- Repeated invocations of the evaluator: each element of the list is the
project's material table at the moment `check_budget_alerts` is called, and
the alert table is threaded through the calls. -/
def runChecks (budget : ℚ) (alerts : List BudgetAlert) :
    List (List MaterialEntry) → List BudgetAlert
  | [] => alerts
  | ms :: rest =>
      runChecks budget
        (check_budget_alerts
          { budget := budget, materials := ms, labor := [], alerts := alerts }).alerts
        rest

/-- Entity-store effect of inserting a new material entry. -/
def addMaterial (p : ProjectState) (e : MaterialEntry) : ProjectState :=
  { p with materials := p.materials ++ [e] }

/-- Entity-store effect of updating the material entry at position `i`. -/
def setMaterial (p : ProjectState) (i : ℕ) (e : MaterialEntry) : ProjectState :=
  { p with materials := p.materials.set i e }

/-- Entity-store effect of inserting a new labor entry. -/
def addLabor (p : ProjectState) (l : LaborEntry) : ProjectState :=
  { p with labor := p.labor ++ [l] }

/-- Entity-store effect of updating the labor entry at position `i`. -/
def setLabor (p : ProjectState) (i : ℕ) (l : LaborEntry) : ProjectState :=
  { p with labor := p.labor.set i l }

/-- Observable steps of a mutating view's POST path, in execution order.
`raiseAttributeError` marks an uncaught Python `AttributeError` aborting the
view; nothing after it in the source runs. -/
inductive Effect
  | saveMaterial
  | saveLabor
  | checkAlerts
  | raiseAttributeError
  deriving DecidableEq, Repr

/-- POST path of `material_create` (`tracker/views.py` lines 296–324) on a
valid form: `material.save()` persists the entry; the `ActivityLog` message
then evaluates `material.category.name` (line 311), but `MaterialEntry`
(`tracker/models.py`) has a `material_type` field and no `category` field,
so an `AttributeError` is raised — before the `ActivityLog` row is written
and before the `check_budget_alerts(project)` call at line 314 is reached.
The saved entry persists; the alert table is untouched. -/
def material_create (p : ProjectState) (e : MaterialEntry) :
    ProjectState × List Effect :=
  (addMaterial p e, [Effect.saveMaterial, Effect.raiseAttributeError])

/-- POST path of `material_update` (`tracker/views.py` lines 328–355) on a
valid form: `form.save()` persists the edit, then the `ActivityLog` message
evaluates `material.category.name` (line 341) and raises `AttributeError`
(no `category` field on `MaterialEntry`), so the `check_budget_alerts` call
at line 344 is never reached. -/
def material_update (p : ProjectState) (i : ℕ) (e : MaterialEntry) :
    ProjectState × List Effect :=
  (setMaterial p i e, [Effect.saveMaterial, Effect.raiseAttributeError])

/-- Success path of `labor_create` (`labor/views.py` lines 12–32): save the
entry and redirect.  No activity log is written and `check_budget_alerts`
is not called. -/
def labor_create (p : ProjectState) (l : LaborEntry) :
    ProjectState × List Effect :=
  (addLabor p l, [Effect.saveLabor])

/-- Success path of `labor_update` (`labor/views.py` lines 34–53): save the
edited entry and redirect.  `check_budget_alerts` is not called. -/
def labor_update (p : ProjectState) (i : ℕ) (l : LaborEntry) :
    ProjectState × List Effect :=
  (setLabor p i l, [Effect.saveLabor])

/-- A `Receipt` row (`tracker/models.py`), restricted to the fields the
primacy logic touches.  `uploaded_seq` is the upload order standing in for
`uploaded_at` (larger = more recent). -/
structure Receipt where
  pk : ℕ
  is_primary : Bool
  uploaded_seq : ℕ
  deriving DecidableEq, Repr

/-- The receipt table of one material entry, together with the material's
denormalized `has_receipt` flag and the store's identity counter. -/
structure MaterialReceiptState where
  receipts : List Receipt
  has_receipt : Bool
  next_id : ℕ
  deriving DecidableEq, Repr

/-- Number of receipts of the material marked primary. -/
def primaryCount (rs : List Receipt) : ℕ :=
  rs.countP (fun r => r.is_primary)

/-- The default queryset ordering `['-is_primary', '-uploaded_at']` of
`Receipt.Meta` (`tracker/models.py` lines 278–279): primary receipts first,
then most recently uploaded first. -/
def receiptBefore (a b : Receipt) : Prop :=
  if a.is_primary = b.is_primary then b.uploaded_seq ≤ a.uploaded_seq
  else a.is_primary = true

instance : DecidableRel receiptBefore := fun a b => by
  unfold receiptBefore
  infer_instance

/-- The receipts of a material in their default ordering. -/
def receipts_ordered (rs : List Receipt) : List Receipt :=
  List.insertionSort receiptBefore rs

/-- `material_entry.receipts.first()`: the first receipt under the default
ordering, if any. -/
def receipts_first (rs : List Receipt) : Option Receipt :=
  (receipts_ordered rs).head?

/-- A SQL `UPDATE` of one row identified by `r.pk`, writing the field values
of `r` (the effect of `super().save()` on an object that has a primary
key). -/
def updateRow (rs : List Receipt) (r : Receipt) : List Receipt :=
  rs.map (fun x => if x.pk = r.pk then r else x)

/-- `Receipt.save` (`tracker/models.py` lines 306–316) on an object that
already has a primary key: the two `if not self.pk` steps are skipped, the
row is updated in place, and `has_receipt` is refreshed. -/
def receipt_save_existing (m : MaterialReceiptState) (r : Receipt) :
    MaterialReceiptState :=
  let rs := updateRow m.receipts r
  { m with receipts := rs, has_receipt := !rs.isEmpty }

/-- `Receipt.save` (`tracker/models.py` lines 306–316) on a newly created
receipt (no primary key yet), as reached from the `receipt_upload` view: if
the material has no receipts the new one is forced primary; if it is primary
(forced or requested) all existing siblings are bulk-updated to
`is_primary = False`; then the row is inserted and `has_receipt`
refreshed. -/
def receipt_save_new (m : MaterialReceiptState) (requested_primary : Bool) :
    MaterialReceiptState :=
  let prim := if m.receipts.isEmpty then true else requested_primary
  let siblings :=
    if prim then m.receipts.map (fun x => { x with is_primary := false })
    else m.receipts
  let rs := siblings ++ [{ pk := m.next_id, is_primary := prim, uploaded_seq := m.next_id }]
  { receipts := rs, has_receipt := !rs.isEmpty, next_id := m.next_id + 1 }

/-- `receipt_set_primary` (`tracker/views.py` lines 420–433): look up the
receipt (404 when absent, modelled as a no-op), bulk-update every receipt of
the material to `is_primary = False`, set the chosen one primary, and save
it. -/
def receipt_set_primary (m : MaterialReceiptState) (k : ℕ) :
    MaterialReceiptState :=
  match m.receipts.find? (fun r => r.pk == k) with
  | none => m
  | some r =>
      let m1 : MaterialReceiptState :=
        { m with receipts := m.receipts.map (fun x => { x with is_primary := false }) }
      receipt_save_existing m1 { r with is_primary := true }

/-- `Receipt.delete` (`tracker/models.py` lines 318–331): remove the row,
refresh `has_receipt`, and — when the deleted receipt was primary and
receipts remain — call `save()` on the first remaining receipt.  Note the
source never sets `is_primary = True` on that receipt before saving it. -/
def receipt_delete (m : MaterialReceiptState) (k : ℕ) : MaterialReceiptState :=
  match m.receipts.find? (fun r => r.pk == k) with
  | none => m
  | some r =>
      let remaining := m.receipts.filter (fun x => x.pk != k)
      let m1 : MaterialReceiptState :=
        { receipts := remaining, has_receipt := !remaining.isEmpty, next_id := m.next_id }
      if r.is_primary && !remaining.isEmpty then
        match receipts_first remaining with
        | some f => receipt_save_existing m1 f
        | none => m1
      else m1

/-- The public receipt operations reachable from `tracker/urls.py`:
upload (`receipt_upload`), set-primary (`receipt_set_primary`) and delete
(`receipt_delete`). -/
inductive ReceiptOp
  | upload (requested_primary : Bool)
  | setPrimary (k : ℕ)
  | del (k : ℕ)
  deriving DecidableEq, Repr

/-- Interpretation of one public receipt operation. -/
def applyOp (m : MaterialReceiptState) : ReceiptOp → MaterialReceiptState
  | ReceiptOp.upload b => receipt_save_new m b
  | ReceiptOp.setPrimary k => receipt_set_primary m k
  | ReceiptOp.del k => receipt_delete m k

/-- Interpretation of a sequence of public receipt operations. -/
def applyOps (m : MaterialReceiptState) (ops : List ReceiptOp) :
    MaterialReceiptState :=
  ops.foldl applyOp m

/-- A material entry as created, before any receipt is uploaded. -/
def emptyMaterial : MaterialReceiptState :=
  { receipts := [], has_receipt := false, next_id := 0 }

/-- The primary keys of a receipt table. -/
def pks (rs : List Receipt) : List ℕ := rs.map (fun r => r.pk)

/-- Well-formedness of a material's receipt table: keys are below the
store's identity counter, keys are unique (primary-key property), and at
most one receipt is marked primary. -/
def ReceiptInvariant (m : MaterialReceiptState) : Prop :=
  (∀ r ∈ m.receipts, r.pk < m.next_id) ∧
    (pks m.receipts).Nodup ∧ primaryCount m.receipts ≤ 1

/-- Last-write-wins lookup of a month's cost in a grouped series, defaulting
to `0` — the behaviour of the `defaultdict` assignments in `dashboard`
(`tracker/views.py` lines 111–120).  Months are linearized to naturals. -/
def lastCost (xs : List (ℕ × ℚ)) (m : ℕ) : ℚ :=
  xs.foldl (fun acc p => if p.1 = m then p.2 else acc) 0

/-- The months present in either grouped series (the key set of
`monthly_map`). -/
def monthKeys (mats labs : List (ℕ × ℚ)) : List ℕ :=
  (mats.map Prod.fst ++ labs.map Prod.fst).dedup

/-- The monthly timeline merge of `dashboard` (`tracker/views.py` lines
110–129): one record per month present in either series, sorted by month,
each record carrying the material cost and the labor cost of that month
with a missing side defaulting to `0`. -/
def monthly_spending (mats labs : List (ℕ × ℚ)) : List (ℕ × ℚ × ℚ) :=
  (List.insertionSort (· ≤ ·) (monthKeys mats labs)).map
    (fun m => (m, lastCost mats m, lastCost labs m))

/-! ### Theorems -/

/-- C1 (counterexample): for the project with budget 1000, one material entry
of cost 800 and one labor entry of 2 workers at rate 100, `total_spent` is
800, not `total_material_cost + total_labor_cost = 1000`; and adding that
labor entry to the project leaves `total_spent` at 800 instead of increasing
it by `2 * 100`. -/
theorem c1_total_spent_counterexample :
    total_spent ⟨1000, [⟨800, 1, 0⟩], [⟨2, 100⟩], []⟩ ≠
        total_material_cost ⟨1000, [⟨800, 1, 0⟩], [⟨2, 100⟩], []⟩ +
          total_labor_cost ⟨1000, [⟨800, 1, 0⟩], [⟨2, 100⟩], []⟩ ∧
      total_spent (addLabor ⟨1000, [⟨800, 1, 0⟩], [], []⟩ ⟨2, 100⟩) ≠
        total_spent ⟨1000, [⟨800, 1, 0⟩], [], []⟩ +
          LaborEntry.total_cost ⟨2, 100⟩ := by
  constructor
  · norm_num [total_spent, total_material_cost, total_labor_cost,
      LaborEntry.total_cost]
  · norm_num [total_spent, addLabor, LaborEntry.total_cost]

/-- C1 (amended): `Project.total_spent` equals the sum of material costs
only (the dashboard's `total_material_cost`); labor costs are not included,
so adding a `LaborEntry` leaves `total_spent` unchanged. -/
theorem c1_total_spent_amended (p : ProjectState) (l : LaborEntry) :
    total_spent p = total_material_cost p ∧
      total_spent (addLabor p l) = total_spent p := by
  exact ⟨rfl, rfl⟩

/-- C5: a project with `budget = 0` has utilization percentage `0` (the
source guards on `budget == 0` before dividing), and a project with no
material entries has `total_spent = 0`, hence utilization `0` as well. -/
theorem c5_zero_budget_utilization (p : ProjectState) (h : p.budget = 0) :
    budget_utilization_percentage p = 0 ∧
      (p.materials = [] →
        total_spent p = 0 ∧ budget_utilization_percentage p = 0) := by
  constructor
  · simp [budget_utilization_percentage, h]
  · intro hm
    exact ⟨by simp [total_spent, hm], by simp [budget_utilization_percentage, h]⟩

/-- C5 witness: the project with budget 0 and no entries. -/
theorem c5_zero_budget_utilization_witness :
    (⟨0, [], [], []⟩ : ProjectState).budget = 0 ∧
      (budget_utilization_percentage ⟨0, [], [], []⟩ = 0 ∧
        ((⟨0, [], [], []⟩ : ProjectState).materials = [] →
          total_spent ⟨0, [], [], []⟩ = 0 ∧
            budget_utilization_percentage ⟨0, [], [], []⟩ = 0)) :=
  ⟨rfl, c5_zero_budget_utilization ⟨0, [], [], []⟩ rfl⟩

/-- C8: under the invariant `0 ≤ quantity_used ≤ quantity`, the derived
quantities of a material entry satisfy
`quantity_remaining + quantity_used = quantity`, and the entry is depleted
exactly when `quantity_remaining = 0`. -/
theorem c8_quantity_accounting (e : MaterialEntry)
    (_h0 : 0 ≤ e.quantity_used) (h1 : e.quantity_used ≤ e.quantity) :
    e.quantity_remaining + e.quantity_used = e.quantity ∧
      (e.is_depleted = true ↔ e.quantity_remaining = 0) := by
  constructor
  · simp [MaterialEntry.quantity_remaining]
  · simp only [MaterialEntry.is_depleted, MaterialEntry.quantity_remaining,
      decide_eq_true_eq, sub_eq_zero]
    constructor
    · intro h
      linarith
    · intro h
      linarith

/-- C8 witness: the entry with quantity 5 and quantity_used 2. -/
theorem c8_quantity_accounting_witness :
    (0 ≤ (⟨0, 5, 2⟩ : MaterialEntry).quantity_used ∧
        (⟨0, 5, 2⟩ : MaterialEntry).quantity_used ≤
          (⟨0, 5, 2⟩ : MaterialEntry).quantity) ∧
      ((⟨0, 5, 2⟩ : MaterialEntry).quantity_remaining +
            (⟨0, 5, 2⟩ : MaterialEntry).quantity_used =
          (⟨0, 5, 2⟩ : MaterialEntry).quantity ∧
        ((⟨0, 5, 2⟩ : MaterialEntry).is_depleted = true ↔
          (⟨0, 5, 2⟩ : MaterialEntry).quantity_remaining = 0)) :=
  ⟨⟨by norm_num, by norm_num⟩,
    c8_quantity_accounting ⟨0, 5, 2⟩ (by norm_num) (by norm_num)⟩

/-- C2: one call of `check_budget_alerts` appends at most one alert, and the
branch taken follows descending severity with first match winning: an
`exceeded` alert is created exactly when utilization is at least 100 and no
`exceeded` alert exists; otherwise a `critical` alert exactly when
utilization is at least 90 and no `critical` alert exists; otherwise a
`warning` alert exactly when utilization is at least 75 and no `warning`
alert exists; otherwise the alert table is unchanged. -/
theorem c2_check_budget_alerts_branches (p : ProjectState) :
    (check_budget_alerts p).alerts.length ≤ p.alerts.length + 1 ∧
      (countAlertType (check_budget_alerts p).alerts AlertType.exceeded =
          countAlertType p.alerts AlertType.exceeded + 1 ↔
        (100 ≤ budget_utilization_percentage p ∧
          hasAlertType p.alerts AlertType.exceeded = false)) ∧
      (countAlertType (check_budget_alerts p).alerts AlertType.critical =
          countAlertType p.alerts AlertType.critical + 1 ↔
        (¬(100 ≤ budget_utilization_percentage p ∧
            hasAlertType p.alerts AlertType.exceeded = false) ∧
          90 ≤ budget_utilization_percentage p ∧
          hasAlertType p.alerts AlertType.critical = false)) ∧
      (countAlertType (check_budget_alerts p).alerts AlertType.warning =
          countAlertType p.alerts AlertType.warning + 1 ↔
        (¬(100 ≤ budget_utilization_percentage p ∧
            hasAlertType p.alerts AlertType.exceeded = false) ∧
          ¬(90 ≤ budget_utilization_percentage p ∧
            hasAlertType p.alerts AlertType.critical = false) ∧
          75 ≤ budget_utilization_percentage p ∧
          hasAlertType p.alerts AlertType.warning = false)) ∧
      ((check_budget_alerts p).alerts = p.alerts ↔
        (¬(100 ≤ budget_utilization_percentage p ∧
            hasAlertType p.alerts AlertType.exceeded = false) ∧
          ¬(90 ≤ budget_utilization_percentage p ∧
            hasAlertType p.alerts AlertType.critical = false) ∧
          ¬(75 ≤ budget_utilization_percentage p ∧
            hasAlertType p.alerts AlertType.warning = false))) := by
  simp only [check_budget_alerts]
  split_ifs with h1 h2 h3
  · simp [countAlertType, List.countP_append, List.countP_cons, mkBudgetAlert, h1]
  · simp [countAlertType, List.countP_append, List.countP_cons, mkBudgetAlert, h1, h2]
  · simp [countAlertType, List.countP_append, List.countP_cons, mkBudgetAlert, h1, h2, h3]
  · simp [countAlertType, List.countP_append, List.countP_cons, mkBudgetAlert, h1, h2, h3]

/-- An alert type that does not occur in the table has count zero. -/
theorem countAlertType_eq_zero_of_not_has (as : List BudgetAlert) (t : AlertType)
    (h : hasAlertType as t = false) : countAlertType as t = 0 := by
  simp only [hasAlertType, List.any_eq_false] at h
  simp only [countAlertType, List.countP_eq_zero]
  exact h

/-- The evaluator never removes alerts: a type present before a call of
`check_budget_alerts` is present after it. -/
theorem hasAlertType_check (p : ProjectState) (t : AlertType)
    (h : hasAlertType p.alerts t = true) :
    hasAlertType (check_budget_alerts p).alerts t = true := by
  simp only [check_budget_alerts]
  split_ifs <;>
    simp only [hasAlertType, List.any_append, Bool.or_eq_true] at h ⊢
  · exact Or.inl h
  · exact Or.inl h
  · exact Or.inl h
  · exact h

/-- A call of `check_budget_alerts` creates no alert of a type that already
exists for the project. -/
theorem countAlertType_check_of_has (p : ProjectState) (t : AlertType)
    (h : hasAlertType p.alerts t = true) :
    countAlertType (check_budget_alerts p).alerts t = countAlertType p.alerts t := by
  simp only [check_budget_alerts]
  split_ifs with h1 h2 h3
  · rcases t with _ | _ | _ <;>
      simp_all [countAlertType, List.countP_append, mkBudgetAlert]
  · rcases t with _ | _ | _ <;>
      simp_all [countAlertType, List.countP_append, mkBudgetAlert]
  · rcases t with _ | _ | _ <;>
      simp_all [countAlertType, List.countP_append, mkBudgetAlert]
  · rfl

/-- After one call of `check_budget_alerts` each type's alert count is
bounded by its previous count, or by one if the type was absent. -/
theorem countAlertType_check_le (p : ProjectState) (t : AlertType) :
    countAlertType (check_budget_alerts p).alerts t ≤
      max (countAlertType p.alerts t) 1 := by
  by_cases h : hasAlertType p.alerts t = true
  · rw [countAlertType_check_of_has p t h]
    exact le_max_left _ _
  · have h0 : countAlertType p.alerts t = 0 :=
      countAlertType_eq_zero_of_not_has p.alerts t (by simpa using h)
    simp only [check_budget_alerts]
    split_ifs <;>
      · rcases t with _ | _ | _ <;>
          simp_all [countAlertType, List.countP_append, mkBudgetAlert]

/-- Across any sequence of evaluator calls, an alert type present at the
start is never created again. -/
theorem runChecks_count_of_has (b : ℚ) (t : AlertType) :
    ∀ (sp : List (List MaterialEntry)) (a : List BudgetAlert),
      hasAlertType a t = true →
      countAlertType (runChecks b a sp) t = countAlertType a t := by
  intro sp
  induction sp with
  | nil => intro a _; rfl
  | cons ms rest ih =>
      intro a ha
      have hstep := countAlertType_check_of_has
        { budget := b, materials := ms, labor := [], alerts := a } t ha
      have hkeep := hasAlertType_check
        { budget := b, materials := ms, labor := [], alerts := a } t ha
      simpa [runChecks, hstep] using ih _ hkeep

/-- Across any sequence of evaluator calls, a per-type count that starts at
most one stays at most one. -/
theorem runChecks_count_le_one (b : ℚ) (t : AlertType) :
    ∀ (sp : List (List MaterialEntry)) (a : List BudgetAlert),
      countAlertType a t ≤ 1 →
      countAlertType (runChecks b a sp) t ≤ 1 := by
  intro sp
  induction sp with
  | nil => intro a ha; exact ha
  | cons ms rest ih =>
      intro a ha
      simp only [runChecks]
      refine ih _ ?_
      have h2 : countAlertType
          (check_budget_alerts
            { budget := b, materials := ms, labor := [], alerts := a }).alerts t ≤
          max (countAlertType a t) 1 :=
        countAlertType_check_le _ t
      omega

/-- C3: repeated calls of the evaluator (each seeing an arbitrary material
table, in particular one of the same or higher utilization) never create a
second alert of a type already present for the project — its count is
unchanged by the whole run — and starting from an empty alert table the
whole run creates at most one alert per type. -/
theorem c3_no_duplicate_alert_types (b : ℚ) (a : List BudgetAlert)
    (sp : List (List MaterialEntry)) (t : AlertType)
    (h : hasAlertType a t = true) :
    countAlertType (runChecks b a sp) t = countAlertType a t ∧
      countAlertType (runChecks b [] sp) t ≤ 1 :=
  ⟨runChecks_count_of_has b t sp a h,
    runChecks_count_le_one b t sp [] (by simp [countAlertType])⟩

/-- C3 witness: an alert table already holding a warning alert, run through
one further evaluator call at 80 percent utilization. -/
theorem c3_no_duplicate_alert_types_witness :
    hasAlertType [mkBudgetAlert AlertType.warning 80] AlertType.warning = true ∧
      (countAlertType
          (runChecks 1000 [mkBudgetAlert AlertType.warning 80] [[⟨800, 1, 0⟩]])
          AlertType.warning =
        countAlertType [mkBudgetAlert AlertType.warning 80] AlertType.warning ∧
      countAlertType (runChecks 1000 [] [[⟨800, 1, 0⟩]]) AlertType.warning ≤ 1) :=
  ⟨rfl, c3_no_duplicate_alert_types 1000 [mkBudgetAlert AlertType.warning 80]
    [[⟨800, 1, 0⟩]] AlertType.warning rfl⟩

/-- C4 (counterexample): for the project with budget 1000 and a material
entry of cost 800 (utilization 80 percent, above the warning threshold),
the success path of `labor_create` performs no `check_budget_alerts` call,
leaves the alert table empty — while invoking the evaluator on the mutated
project would have created a warning alert. -/
theorem c4_labor_create_skips_evaluator :
    Effect.checkAlerts ∉ (labor_create ⟨1000, [⟨800, 1, 0⟩], [], []⟩ ⟨2, 100⟩).2 ∧
      (labor_create ⟨1000, [⟨800, 1, 0⟩], [], []⟩ ⟨2, 100⟩).1.alerts = [] ∧
      (check_budget_alerts (labor_create ⟨1000, [⟨800, 1, 0⟩], [], []⟩ ⟨2, 100⟩).1).alerts =
        [mkBudgetAlert AlertType.warning 80] := by
  refine ⟨by decide, rfl, ?_⟩
  norm_num [check_budget_alerts, budget_utilization_percentage, total_spent,
    labor_create, addLabor, hasAlertType, mkBudgetAlert]

/-- C4 (amended): no mutation path of this source invokes the budget alert
evaluator. `material_create` and `material_update` persist the entry (their
resulting state is the bare mutation, alerts untouched) and then abort with
`AttributeError` — reading `material.category.name` on a model with no
`category` field — before the `check_budget_alerts` call is reached, so
`checkAlerts` never appears in their traces and the operation does not
complete; `labor_create` and `labor_update` complete the bare mutation
without raising and without ever calling the evaluator. -/
theorem c4_evaluator_coverage (p : ProjectState) (e : MaterialEntry) (i : ℕ)
    (l : LaborEntry) :
    (material_create p e).1 = addMaterial p e ∧
      Effect.checkAlerts ∉ (material_create p e).2 ∧
      (material_create p e).2.getLast? = some Effect.raiseAttributeError ∧
      (material_update p i e).1 = setMaterial p i e ∧
      Effect.checkAlerts ∉ (material_update p i e).2 ∧
      (material_update p i e).2.getLast? = some Effect.raiseAttributeError ∧
      (labor_create p l).1 = addLabor p l ∧
      Effect.checkAlerts ∉ (labor_create p l).2 ∧
      Effect.raiseAttributeError ∉ (labor_create p l).2 ∧
      (labor_update p i l).1 = setLabor p i l ∧
      Effect.checkAlerts ∉ (labor_update p i l).2 ∧
      Effect.raiseAttributeError ∉ (labor_update p i l).2 :=
  ⟨rfl, by simp [material_create], rfl, rfl, by simp [material_update], rfl,
    rfl, by simp [labor_create], by simp [labor_create], rfl,
    by simp [labor_update], by simp [labor_update]⟩

/-- Filtering away the updated row's key commutes with a row update: rows
whose `pk` differs from the written row are untouched by `updateRow`. -/
theorem filter_updateRow_ne (rs : List Receipt) (r : Receipt) :
    (updateRow rs r).filter (fun y => y.pk != r.pk) =
      rs.filter (fun y => y.pk != r.pk) := by
  simp only [updateRow]
  induction rs with
  | nil => rfl
  | cons a t ih =>
      simp only [List.map_cons, List.filter_cons]
      by_cases h : a.pk = r.pk
      · simp [h, ih]
      · simp [h, ih]

/-- C10: saving a `Receipt` that already has a primary key leaves every
sibling receipt of the same material (every row with a different `pk`)
exactly as it was, including its `is_primary` flag — the sibling-unsetting
step of `Receipt.save` runs only for newly created receipts. -/
theorem c10_save_existing_preserves_siblings (m : MaterialReceiptState)
    (r : Receipt) :
    (receipt_save_existing m r).receipts.filter (fun y => y.pk != r.pk) =
      m.receipts.filter (fun y => y.pk != r.pk) := by
  simpa [receipt_save_existing] using filter_updateRow_ne m.receipts r

theorem pks_unset (rs : List Receipt) :
    pks (rs.map (fun x => { x with is_primary := false })) = pks rs := by
  simp [pks, List.map_map]

theorem primaryCount_unset (rs : List Receipt) :
    primaryCount (rs.map (fun x => { x with is_primary := false })) = 0 := by
  simp [primaryCount, List.countP_map]

theorem pks_updateRow (rs : List Receipt) (r : Receipt) :
    pks (updateRow rs r) = pks rs := by
  simp only [pks, updateRow, List.map_map]
  refine List.map_congr_left ?_
  intro x _
  by_cases h : x.pk = r.pk <;> simp [h]

theorem updateRow_of_not_mem (rs : List Receipt) (r : Receipt)
    (h : r.pk ∉ pks rs) : updateRow rs r = rs := by
  induction rs with
  | nil => rfl
  | cons a t ih =>
      simp only [pks, List.map_cons, List.mem_cons, not_or] at h
      simp only [updateRow, List.map_cons]
      rw [if_neg (fun hc => h.1 hc.symm)]
      have := ih (by simp [pks, h.2])
      simp only [updateRow] at this
      rw [this]

theorem updateRow_self (rs : List Receipt) (f : Receipt)
    (hnd : (pks rs).Nodup) (hf : f ∈ rs) : updateRow rs f = rs := by
  induction rs with
  | nil => cases hf
  | cons a t ih =>
      simp only [pks, List.map_cons, List.nodup_cons] at hnd
      rcases List.mem_cons.mp hf with rfl | hft
      · simp only [updateRow, List.map_cons, if_pos rfl]
        have : updateRow t f = t := updateRow_of_not_mem t f hnd.1
        simp only [updateRow] at this
        rw [this]
        simp
      · have hne : a.pk ≠ f.pk := by
          intro hc
          exact hnd.1 (hc ▸ (List.mem_map.mpr ⟨f, hft, rfl⟩))
        simp only [updateRow, List.map_cons, if_neg hne]
        have := ih hnd.2 hft
        simp only [updateRow] at this
        rw [this]

theorem primaryCount_updateRow_all_false (rs : List Receipt) (r : Receipt)
    (hall : ∀ x ∈ rs, x.is_primary = false) (hnd : (pks rs).Nodup) :
    primaryCount (updateRow rs r) ≤ 1 := by
  induction rs with
  | nil => simp [updateRow, primaryCount]
  | cons a t ih =>
      simp only [pks, List.map_cons, List.nodup_cons] at hnd
      simp only [updateRow, List.map_cons]
      by_cases h : a.pk = r.pk
      · rw [if_pos h]
        have ht : updateRow t r = t := by
          apply updateRow_of_not_mem
          rw [← h]
          exact hnd.1
        simp only [updateRow] at ht
        rw [ht]
        have htz : List.countP (fun x => x.is_primary) t = 0 := by
          simp only [List.countP_eq_zero]
          intro x hx
          simp [hall x (List.mem_cons_of_mem a hx)]
        simp only [primaryCount, List.countP_cons, htz]
        cases hb : r.is_primary <;> simp [hb]
      · rw [if_neg h]
        have ha : a.is_primary = false := hall a (List.mem_cons_self a t)
        have hrest := ih (fun x hx => hall x (List.mem_cons_of_mem a hx)) hnd.2
        simp only [updateRow] at hrest
        simp only [primaryCount, List.countP_cons] at hrest ⊢
        simpa [ha] using hrest



theorem inv_save_new (m : MaterialReceiptState) (b : Bool)
    (h : ReceiptInvariant m) : ReceiptInvariant (receipt_save_new m b) := by
  obtain ⟨hbound, hnd, hcount⟩ := h
  simp only [receipt_save_new]
  by_cases hp : (if m.receipts.isEmpty then (true : Bool) else b) = true
  · rw [hp]
    simp only [if_true]
    refine ⟨?_, ?_, ?_⟩
    · intro r hr
      rcases List.mem_append.mp hr with hl | hl
      · obtain ⟨x, hx, rfl⟩ := List.mem_map.mp hl
        exact Nat.lt_succ_of_lt (hbound x hx)
      · simp only [List.mem_singleton] at hl
        subst hl
        exact Nat.lt_succ_self _
    · simp only [pks, List.map_append, List.map_map, List.map_cons, List.map_nil]
      rw [List.nodup_append]
      refine ⟨?_, List.nodup_singleton _, ?_⟩
      · exact hnd
      · intro x hx
        obtain ⟨y, hy, rfl⟩ := List.mem_map.mp hx
        simp only [List.mem_singleton]
        exact Nat.ne_of_lt (hbound y hy)
    · simp only [primaryCount, List.countP_append]
      have h1 : List.countP (fun r => r.is_primary)
          (m.receipts.map (fun x => { x with is_primary := false })) = 0 := by
        exact primaryCount_unset m.receipts
      simp [h1, List.countP_cons]
  · simp only [Bool.not_eq_true] at hp
    rw [hp]
    simp only [Bool.false_eq_true, if_false]
    refine ⟨?_, ?_, ?_⟩
    · intro r hr
      rcases List.mem_append.mp hr with hl | hl
      · exact Nat.lt_succ_of_lt (hbound r hl)
      · simp only [List.mem_singleton] at hl
        subst hl
        exact Nat.lt_succ_self _
    · simp only [pks, List.map_append, List.map_cons, List.map_nil]
      rw [List.nodup_append]
      refine ⟨hnd, List.nodup_singleton _, ?_⟩
      · intro x hx
        obtain ⟨y, hy, rfl⟩ := List.mem_map.mp hx
        simp only [List.mem_singleton]
        exact Nat.ne_of_lt (hbound y hy)
    · simp only [primaryCount, List.countP_append, List.countP_cons] at hcount ⊢
      simp [hp]
      omega


theorem inv_set_primary (m : MaterialReceiptState) (k : ℕ)
    (h : ReceiptInvariant m) : ReceiptInvariant (receipt_set_primary m k) := by
  obtain ⟨hbound, hnd, hnc⟩ := h
  simp only [receipt_set_primary]
  cases hfind : m.receipts.find? (fun r => r.pk == k) with
  | none => exact ⟨hbound, hnd, hnc⟩
  | some r =>
      have hrmem : r ∈ m.receipts := List.mem_of_find?_eq_some hfind
      simp only [receipt_save_existing]
      have hallfalse : ∀ x ∈ m.receipts.map (fun x => { x with is_primary := false }),
          x.is_primary = false := by
        intro x hx
        obtain ⟨y, _, rfl⟩ := List.mem_map.mp hx
        rfl
      have hpksunset : pks (m.receipts.map (fun x => { x with is_primary := false })) =
          pks m.receipts := pks_unset m.receipts
      refine ⟨?_, ?_, ?_⟩
      · intro y hy
        obtain ⟨x, hx, rfl⟩ := List.mem_map.mp hy
        by_cases hxe : x.pk = ({ r with is_primary := true } : Receipt).pk
        · rw [if_pos hxe]
          exact hbound r hrmem
        · rw [if_neg hxe]
          obtain ⟨x0, hx0, rfl⟩ := List.mem_map.mp hx
          exact hbound x0 hx0
      · show (pks (updateRow (m.receipts.map (fun x => { x with is_primary := false }))
            { r with is_primary := true })).Nodup
        rw [pks_updateRow, hpksunset]
        exact hnd
      · have := primaryCount_updateRow_all_false
          (m.receipts.map (fun x => { x with is_primary := false }))
          { r with is_primary := true } hallfalse (by rw [hpksunset]; exact hnd)
        simpa only [updateRow] using this

theorem inv_delete (m : MaterialReceiptState) (k : ℕ)
    (h : ReceiptInvariant m) : ReceiptInvariant (receipt_delete m k) := by
  obtain ⟨hbound, hnd, hnc⟩ := h
  simp only [receipt_delete]
  cases hfind : m.receipts.find? (fun r => r.pk == k) with
  | none => exact ⟨hbound, hnd, hnc⟩
  | some r =>
      dsimp only
      have hsub : (m.receipts.filter (fun x => x.pk != k)).Sublist m.receipts :=
        List.filter_sublist _
      have hbound1 : ∀ x ∈ m.receipts.filter (fun x => x.pk != k), x.pk < m.next_id :=
        fun x hx => hbound x (hsub.mem hx)
      have hnd1 : (pks (m.receipts.filter (fun x => x.pk != k))).Nodup := by
        have hmap : (List.map (fun r => r.pk)
            (m.receipts.filter (fun x => x.pk != k))).Sublist
            (List.map (fun r => r.pk) m.receipts) := hsub.map _
        exact List.Nodup.sublist hmap hnd
      have hnc1 : primaryCount (m.receipts.filter (fun x => x.pk != k)) ≤ 1 :=
        le_trans (List.Sublist.countP_le _ hsub) hnc
      split
      · split
        · rename_i f hfirst
          have hfmem : f ∈ m.receipts.filter (fun x => x.pk != k) := by
            have h1 : f ∈ receipts_ordered (m.receipts.filter (fun x => x.pk != k)) := by
              unfold receipts_first at hfirst
              exact List.mem_of_mem_head? (by simp [hfirst])
            exact (List.perm_insertionSort receiptBefore _).mem_iff.mp h1
          have hupd : updateRow (m.receipts.filter (fun x => x.pk != k)) f =
              m.receipts.filter (fun x => x.pk != k) :=
            updateRow_self _ f hnd1 hfmem
          simp only [receipt_save_existing, hupd]
          exact ⟨hbound1, hnd1, hnc1⟩
        · exact ⟨hbound1, hnd1, hnc1⟩
      · exact ⟨hbound1, hnd1, hnc1⟩


theorem inv_applyOp (m : MaterialReceiptState) (op : ReceiptOp)
    (h : ReceiptInvariant m) : ReceiptInvariant (applyOp m op) := by
  cases op with
  | upload b => exact inv_save_new m b h
  | setPrimary k => exact inv_set_primary m k h
  | del k => exact inv_delete m k h

theorem inv_applyOps (ops : List ReceiptOp) :
    ∀ m : MaterialReceiptState, ReceiptInvariant m →
      ReceiptInvariant (applyOps m ops) := by
  induction ops with
  | nil => intro m h; exact h
  | cons op rest ih =>
      intro m h
      exact ih (applyOp m op) (inv_applyOp m op h)

theorem inv_emptyMaterial : ReceiptInvariant emptyMaterial := by
  refine ⟨?_, ?_, ?_⟩ <;> simp [emptyMaterial, pks, primaryCount]

/-- C6: starting from a material with no receipts, after every sequence of
the public receipt operations — upload (with any requested primary flag),
set-primary, delete — at most one receipt of the material has
`is_primary = true`. -/
theorem c6_at_most_one_primary (ops : List ReceiptOp) :
    primaryCount (applyOps emptyMaterial ops).receipts ≤ 1 :=
  (inv_applyOps ops emptyMaterial inv_emptyMaterial).2.2

/-- C7 (code bug): upload a first receipt (pk 0, becomes primary) and a
second one (pk 1, not primary), then delete the primary receipt pk 0.
One receipt remains, but `Receipt.delete` merely re-saves it without
setting `is_primary`, so no receipt is primary afterwards — the claimed
promotion of the first remaining receipt does not happen. -/
theorem c7_delete_primary_no_promotion :
    ((applyOps emptyMaterial [ReceiptOp.upload true, ReceiptOp.upload false]).receipts.map
        (fun r => (r.pk, r.is_primary)) = [(0, true), (1, false)]) ∧
      (receipt_delete (applyOps emptyMaterial [ReceiptOp.upload true, ReceiptOp.upload false])
          0).receipts = [{ pk := 1, is_primary := false, uploaded_seq := 1 }] ∧
      primaryCount (receipt_delete
          (applyOps emptyMaterial [ReceiptOp.upload true, ReceiptOp.upload false])
          0).receipts = 0 := by
  refine ⟨by decide, by decide, by decide⟩

/-- Folding the month-assignment step over entries that never mention the
month leaves the accumulator unchanged. -/
theorem lastCost_foldl_const (m : ℕ) :
    ∀ (xs : List (ℕ × ℚ)), m ∉ xs.map Prod.fst →
      ∀ acc : ℚ, xs.foldl (fun acc p => if p.1 = m then p.2 else acc) acc = acc := by
  intro xs
  induction xs with
  | nil => intro _ acc; rfl
  | cons a t ih =>
      intro h acc
      simp only [List.map_cons, List.mem_cons, not_or] at h
      simp only [List.foldl_cons]
      rw [if_neg (fun hc => h.1 hc.symm)]
      exact ih (by simpa using h.2) acc

/-- A month absent from a series has cost 0 (the `defaultdict` default). -/
theorem lastCost_of_not_mem (xs : List (ℕ × ℚ)) (m : ℕ)
    (h : m ∉ xs.map Prod.fst) : lastCost xs m = 0 :=
  lastCost_foldl_const m xs h 0

/-- In a series with duplicate-free months, a month's cost is the value
stored for it. -/
theorem lastCost_of_mem (xs : List (ℕ × ℚ)) (m : ℕ) (c : ℚ)
    (hnd : (xs.map Prod.fst).Nodup) (hmem : (m, c) ∈ xs) :
    lastCost xs m = c := by
  induction xs with
  | nil => cases hmem
  | cons a t ih =>
      simp only [List.map_cons, List.nodup_cons] at hnd
      rcases List.mem_cons.mp hmem with rfl | hmt
      · simp only [lastCost, List.foldl_cons, if_pos rfl]
        exact lastCost_foldl_const m t hnd.1 c
      · have hne : a.1 ≠ m := by
          intro hc
          exact hnd.1 (hc ▸ List.mem_map.mpr ⟨(m, c), hmt, rfl⟩)
        simp only [lastCost, List.foldl_cons, if_neg hne]
        exact ih hnd.2 hmt

/-- C9: given the two grouped monthly series (each month at most once per
series, as produced by the group-by queries), the merged timeline has one
record per month present in either series, its months are duplicate-free
and in chronological order, and each record carries the material cost and
labor cost of its month from the respective series, with a side missing for
that month defaulted to 0 rather than the month being omitted. -/
theorem c9_monthly_timeline_merge (mats labs : List (ℕ × ℚ))
    (hm : (mats.map Prod.fst).Nodup) (hl : (labs.map Prod.fst).Nodup) :
    ((monthly_spending mats labs).map (fun r => r.1)).Nodup ∧
      List.Sorted (· ≤ ·) ((monthly_spending mats labs).map (fun r => r.1)) ∧
      (∀ m : ℕ, m ∈ (monthly_spending mats labs).map (fun r => r.1) ↔
        (m ∈ mats.map Prod.fst ∨ m ∈ labs.map Prod.fst)) ∧
      (∀ m c, (m, c) ∈ mats → m ∉ labs.map Prod.fst →
        (m, c, 0) ∈ monthly_spending mats labs) ∧
      (∀ m c, (m, c) ∈ labs → m ∉ mats.map Prod.fst →
        (m, (0 : ℚ), c) ∈ monthly_spending mats labs) ∧
      (∀ m cm cl, (m, cm) ∈ mats → (m, cl) ∈ labs →
        (m, cm, cl) ∈ monthly_spending mats labs) := by
  have hkeys : (monthly_spending mats labs).map (fun r => r.1) =
      List.insertionSort (· ≤ ·) (monthKeys mats labs) := by
    simp only [monthly_spending, List.map_map]
    have hc : ((fun r : ℕ × ℚ × ℚ => r.1) ∘
        fun m => (m, lastCost mats m, lastCost labs m)) = id := rfl
    rw [hc, List.map_id]
  have hmemkeys : ∀ m : ℕ, m ∈ List.insertionSort (· ≤ ·) (monthKeys mats labs) ↔
      (m ∈ mats.map Prod.fst ∨ m ∈ labs.map Prod.fst) := by
    intro m
    rw [(List.perm_insertionSort _ _).mem_iff]
    simp [monthKeys, List.mem_dedup, List.mem_append]
  refine ⟨?_, ?_, ?_, ?_, ?_, ?_⟩
  · rw [hkeys]
    exact ((List.perm_insertionSort _ _).nodup_iff).mpr (List.nodup_dedup _)
  · rw [hkeys]
    exact List.sorted_insertionSort _ _
  · intro m
    rw [hkeys]
    exact hmemkeys m
  · intro m c hmem hnl
    refine List.mem_map.mpr ⟨m, ?_, ?_⟩
    · exact (hmemkeys m).mpr (Or.inl (List.mem_map.mpr ⟨(m, c), hmem, rfl⟩))
    · rw [lastCost_of_mem mats m c hm hmem, lastCost_of_not_mem labs m hnl]
  · intro m c hmem hnm
    refine List.mem_map.mpr ⟨m, ?_, ?_⟩
    · exact (hmemkeys m).mpr (Or.inr (List.mem_map.mpr ⟨(m, c), hmem, rfl⟩))
    · rw [lastCost_of_mem labs m c hl hmem, lastCost_of_not_mem mats m hnm]
  · intro m cm cl hmm hml
    refine List.mem_map.mpr ⟨m, ?_, ?_⟩
    · exact (hmemkeys m).mpr (Or.inl (List.mem_map.mpr ⟨(m, cm), hmm, rfl⟩))
    · rw [lastCost_of_mem mats m cm hm hmm, lastCost_of_mem labs m cl hl hml]


/-- C9 witness: a material cost in month 1 only and a labor cost in month 2
only. -/
theorem c9_monthly_timeline_merge_witness :
    (([((1 : ℕ), (500 : ℚ))].map Prod.fst).Nodup ∧
        ([((2 : ℕ), (300 : ℚ))].map Prod.fst).Nodup) ∧
      (((monthly_spending [(1, 500)] [(2, 300)]).map (fun r => r.1)).Nodup ∧
        List.Sorted (· ≤ ·)
          ((monthly_spending [(1, 500)] [(2, 300)]).map (fun r => r.1)) ∧
        (∀ m : ℕ, m ∈ (monthly_spending [(1, 500)] [(2, 300)]).map (fun r => r.1) ↔
          (m ∈ [((1 : ℕ), (500 : ℚ))].map Prod.fst ∨
            m ∈ [((2 : ℕ), (300 : ℚ))].map Prod.fst)) ∧
        (∀ m c, (m, c) ∈ [((1 : ℕ), (500 : ℚ))] →
          m ∉ [((2 : ℕ), (300 : ℚ))].map Prod.fst →
          (m, c, 0) ∈ monthly_spending [(1, 500)] [(2, 300)]) ∧
        (∀ m c, (m, c) ∈ [((2 : ℕ), (300 : ℚ))] →
          m ∉ [((1 : ℕ), (500 : ℚ))].map Prod.fst →
          (m, (0 : ℚ), c) ∈ monthly_spending [(1, 500)] [(2, 300)]) ∧
        (∀ m cm cl, (m, cm) ∈ [((1 : ℕ), (500 : ℚ))] →
          (m, cl) ∈ [((2 : ℕ), (300 : ℚ))] →
          (m, cm, cl) ∈ monthly_spending [(1, 500)] [(2, 300)])) :=
  ⟨⟨by decide, by decide⟩,
    c9_monthly_timeline_merge [(1, 500)] [(2, 300)] (by decide) (by decide)⟩

end ConstructionTracker
